import Mathlib

/-!
Verification of the token-gate server (Express/TypeScript) against its
specification.  The TypeScript sources are shallowly embedded: JavaScript
numbers are modelled as exact rationals plus `NaN`/`±Infinity`, `BigInt`
values as `Int`, the in-memory `Map` nonce store as an association list
with unique keys (`AList`), and wall-clock reads (`Date.now()`) as explicit
`nowMs : Int` parameters.  External collaborators (the `Date.parse`
routine, the polkadot signature check, the on-chain balance query and the
HMAC layer of the JWT library) are passed in as oracles or idealised,
exactly where the handlers call them.  JavaScript string routines
(`split`, `trim`, `startsWith`, `join`) are re-implemented structurally
over `List Char` so that every definition evaluates inside the kernel.
-/

namespace TokenGate

/-- A JavaScript `number`: an IEEE-754 double, modelled as `NaN`,
`±Infinity`, or an exact rational value (the finite doubles are a subset
of ℚ; rounding of double arithmetic is not needed for the code under
verification, which only compares, truncates and converts these values). -/
inductive JsNum where
  | nan : JsNum
  | inf (positive : Bool) : JsNum
  | finite (val : ℚ) : JsNum
deriving DecidableEq

/-- `Math.trunc` on a finite double: truncation toward zero.
`q.num / q.den` uses `Int` division, which truncates toward zero. -/
def jsTrunc (q : ℚ) : Int := q.num / (q.den : Int)

/-- `Number.MAX_SAFE_INTEGER = 2^53 - 1`. -/
def MAX_SAFE_INTEGER : Int := 2 ^ 53 - 1

/-- The in-memory nonce store `nonceStore = new Map<string, number>()` from
`auth.ts`: keys are nonce strings, values are absolute expiry times in ms.
JS `Map` has unique keys, so an association list with distinct keys. -/
def NonceStore : Type := AList (fun _ : String => Int)

instance : EmptyCollection NonceStore := ⟨(∅ : AList (fun _ : String => Int))⟩

/-- `nonceStore.get` -/
def NonceStore.lookup (s : NonceStore) (k : String) : Option Int :=
  AList.lookup k s

/-- `nonceStore.set` -/
def NonceStore.set (s : NonceStore) (k : String) (v : Int) : NonceStore :=
  AList.insert k v s

/-- `nonceStore.delete` -/
def NonceStore.del (s : NonceStore) (k : String) : NonceStore :=
  AList.erase k s

/-- `issueNonce(ttlSec)` from `auth.ts`.  The randomly generated UUID is an
input here (`nonce`), as is the clock reading `nowMs` (`Date.now()`):
stores the nonce with absolute expiry `Date.now() + ttlSec * 1000`. -/
def issueNonce (store : NonceStore) (nonce : String) (ttlSec : Int)
    (nowMs : Int) : NonceStore :=
  store.set nonce (nowMs + ttlSec * 1000)

/-- `consumeNonce(nonce)` from `auth.ts`:

```
const exp = nonceStore.get(nonce);
if (!exp) return false;
nonceStore.delete(nonce);
return exp > Date.now();
```

Returns the updated store and the boolean result.  JS truthiness: `!exp`
is true both when the key is absent (`undefined`) and when the stored
number is exactly `0`, so a (physically unreachable) entry with expiry `0`
would be treated as absent and not deleted. -/
def consumeNonce (store : NonceStore) (nonce : String) (nowMs : Int) :
    NonceStore × Bool :=
  match store.lookup nonce with
  | none => (store, false)
  | some exp =>
      if exp = 0 then (store, false)
      else (store.del nonce, decide (nowMs < exp))

/-- JS `String.prototype.split` with a single-character separator,
over the character list: `"".split(sep) = [""]`, `"a\n".split("\n") =
["a", ""]`, etc. -/
def splitOnChar (sep : Char) : List Char → List (List Char)
  | [] => [[]]
  | c :: cs =>
    let r := splitOnChar sep cs
    if c = sep then [] :: r
    else
      match r with
      | [] => [[c]]
      | g :: gs => (c :: g) :: gs

/-- JS `String.prototype.trim` over the character list (JS trims Unicode
whitespace and line terminators; `Char.isWhitespace` covers the characters
that occur in this protocol). -/
def trimChars (l : List Char) : List Char :=
  ((l.dropWhile Char.isWhitespace).reverse.dropWhile Char.isWhitespace).reverse

/-- `extractLine(message, key)` from `auth.ts`:

```
const line = message.split("\n").find(l => l.startsWith(`${key}:`));
return line?.split(":").slice(1).join(":").trim() || "";
```
-/
def extractLine (message key : String) : String :=
  match (splitOnChar '\n' message.data).find?
      (fun l => (key.data ++ [':']).isPrefixOf l) with
  | none => ""
  | some line =>
      String.mk (trimChars (List.intercalate [':']
        ((splitOnChar ':' line).drop 1)))

/-- Decimal value of a digit list, as produced by JS `Number` on the first
regex capture group of `parseDurationMs` (modelled exactly; the digit
strings occurring in practice are far below the 2^53 precision bound). -/
def digitsVal (l : List Char) : Int :=
  l.foldl (fun n c => n * 10 + (Int.ofNat (c.toNat - '0'.toNat))) 0

/-- `parseDurationMs(s)` from `server.ts`:

```
const m = String(s).trim().match(/^(\d+)\s*([smh])?$/i);
if (!m) return 0;
const val = Number(m[1]);
const unit = (m[2] || "s").toLowerCase();
switch (unit) { case "s": ...; case "m": ...; case "h": ...; }
```

The anchored regex is unfolded: after trimming, the string must be a
nonempty digit run, optional whitespace, and an optional unit letter. -/
def parseDurationMs (s : String) : Int :=
  let t := trimChars s.data
  let digits := t.takeWhile Char.isDigit
  let rest := (t.dropWhile Char.isDigit).dropWhile Char.isWhitespace
  if digits.isEmpty then 0
  else
    let val := digitsVal digits
    match rest with
    | [] => val * 1000
    | [c] =>
        if c = 's' ∨ c = 'S' then val * 1000
        else if c = 'm' ∨ c = 'M' then val * 60 * 1000
        else if c = 'h' ∨ c = 'H' then val * 60 * 60 * 1000
        else 0
    | _ => 0

/-- `isMessageFresh(issuedAt, expiresIn, skewMs)` from `server.ts`.
`Date.parse` is an external routine, passed as the oracle `dateParse`
(`none` models `NaN`, `some t` an integral millisecond timestamp);
`Date.now()` is the explicit parameter `nowMs`:

```
const issued = Date.parse(issuedAt);
if (Number.isNaN(issued)) return false;
const now = Date.now();
const durMs = parseDurationMs(expiresIn);
if (durMs <= 0) return false;
return now >= issued - skewMs && now <= issued + durMs + skewMs;
```
-/
def isMessageFresh (dateParse : String → Option Int)
    (issuedAt expiresIn : String) (skewMs nowMs : Int) : Bool :=
  match dateParse issuedAt with
  | none => false
  | some issued =>
      let durMs := parseDurationMs expiresIn
      if durMs ≤ 0 then false
      else decide (issued - skewMs ≤ nowMs) && decide (nowMs ≤ issued + durMs + skewMs)

/-- Result of `toSafeBigInt`: the produced `BigInt` together with whether
the out-of-range `console.warn` fired. -/
structure SafeInt where
  value : Int
  warned : Bool
deriving DecidableEq

/-- `toSafeBigInt(n)` from `server.ts`:

```
if (!Number.isFinite(n)) return 0n;
if (Math.abs(n) > Number.MAX_SAFE_INTEGER) { console.warn(...); }
return BigInt(Math.trunc(n));
```

Note that after the warning the function still returns
`BigInt(Math.trunc(n))`, not `0n`. -/
def toSafeBigInt (n : JsNum) : SafeInt :=
  match n with
  | .nan => ⟨0, false⟩
  | .inf _ => ⟨0, false⟩
  | .finite q => ⟨jsTrunc q, decide ((MAX_SAFE_INTEGER : ℚ) < |q|)⟩

/-- `toHuman(v, decimals)` from `server.ts`; the floating-point display
division is modelled as exact rational division (display only — the
gating comparison never uses it):

```
if (decimals <= 0) return Number(v);
const denom = 10 ** Math.min(decimals, 15);
const res = Number(v) / denom;
if (decimals > 15) { return res / 10 ** (decimals - 15); }
return res;
```
-/
def toHuman (v : Int) (decimals : Int) : ℚ :=
  if decimals ≤ 0 then (v : ℚ)
  else
    let denom : ℚ := 10 ^ (min decimals 15).toNat
    let res : ℚ := (v : ℚ) / denom
    if 15 < decimals then res / (10 : ℚ) ^ (decimals - 15).toNat
    else res

/-- The payload of a session JWT as this server uses it:
`{ sub, hasAccess, iat, exp }` (seconds since epoch for `iat`/`exp`). -/
structure JwtPayload where
  sub : String
  hasAccess : Bool
  iat : Int
  exp : Int
deriving DecidableEq

/-- A bearer-token string, idealised at the level the `jsonwebtoken`
library guarantees: either a well-formed JWT signed with some secret, or
a string that is not a valid JWT at all.  Forging `signed p secret`
without `secret` is assumed impossible (HMAC unforgeability). -/
inductive Token where
  | signed (payload : JwtPayload) (secret : String) : Token
  | malformed (raw : String) : Token
deriving DecidableEq

/-- `signJwt(address, ttlMin, secret)` from `auth.ts`:
`jwt.sign({ sub: address, hasAccess: true }, secret, { expiresIn: "Nm" })`.
The library sets `iat = floor(Date.now()/1000)` and
`exp = iat + ttlMin * 60`. -/
def signJwt (address : String) (ttlMin : Int) (secret : String)
    (nowMs : Int) : Token :=
  Token.signed ⟨address, true, nowMs.fdiv 1000, nowMs.fdiv 1000 + ttlMin * 60⟩
    secret

/-- `jwt.verify(token, secret)`, idealised: succeeds iff the string is a
well-formed JWT signed with exactly this secret and not yet expired
(`jsonwebtoken` rejects when `floor(Date.now()/1000) >= exp`); throws
(here: `none`) on every other input — missing signature match, malformed
string, or expiry passed. -/
def jwtVerify (tok : Token) (secret : String) (nowSec : Int) :
    Option JwtPayload :=
  match tok with
  | .malformed _ => none
  | .signed p s => if s = secret ∧ nowSec < p.exp then some p else none

/-- `(jwt.decode(newJwt) as any)?.exp` from the refresh handler: reading
the `exp` claim without verifying.  `jwt.decode` on a malformed string
yields `null`, so the optional chain yields `undefined`; `secondsUntil`
treats `undefined` and `0` identically (JS falsiness), so `0` stands for
both. -/
def tokenDecodedExp (tok : Token) : Int :=
  match tok with
  | .signed p _ => p.exp
  | .malformed _ => 0

/-- `secondsUntil(exp?)` from `server.ts`:

```
if (!exp) return 0;
const nowSec = Math.floor(Date.now() / 1000);
return exp - nowSec;
```

`!exp` is JS-falsy for `undefined` and `0` alike (both mapped to `0`
here). -/
def secondsUntil (nowMs : Int) (exp : Int) : Int :=
  if exp = 0 then 0 else exp - nowMs.fdiv 1000

/-- The JSON bodies this server produces, tagged with their HTTP status
where it is not 200. -/
inductive HttpResponse where
  /-- `sendError(res, status, error)`: `res.status(status).json({error})`. -/
  | errorResp (status : Int) (error : String) : HttpResponse
  /-- the gating-denied 403 body `{error, balance, threshold, decimals}`. -/
  | gating (status : Int) (error : String) (balance threshold : ℚ)
      (decimals : Int) : HttpResponse
  /-- `/auth/verify` success: `{jwt, balance, threshold, decimals}`. -/
  | verifyOk (jwt : Token) (balance threshold : ℚ) (decimals : Int) :
      HttpResponse
  /-- `/auth/refresh` 200: `{jwt, remainingSec, refreshed}`. -/
  | refreshOk (jwt : Token) (remainingSec : Int) (refreshed : Bool) :
      HttpResponse
  /-- `/entitlement` success: `{ok: true, address, hasAccess}`. -/
  | entitlementOk (address : String) (hasAccess : Bool) : HttpResponse
deriving DecidableEq

/-- The environment-derived configuration used by `/auth/verify`.
`decimals` is a `Nat`: the spec's data model fixes `decimals: integer ≥ 0`
(a negative value would make `10n ** BigInt(d)` throw in JS). -/
structure VerifyConfig where
  expectedDomain : String
  expectedChainId : String
  clockSkewMs : Int
  thresholdHuman : Int
  decimals : Nat
  jwtTtlMin : Int
deriving DecidableEq

/-- The `/auth/verify` handler body (`server.ts` lines 86–149) from the
point its zod schema parse has succeeded.  Oracles: `dateParse` for
`Date.parse`, `sigValid` for `verifySignature` (the polkadot
`signatureVerify` call on `(address, message, signature)`), and `balRaw`
for the awaited `getVFTBalance` result.  Returns the updated nonce store
and the response.

The five `mustExtract` calls throw `Error: <key>` on an empty field, which
the surrounding catch turns into `sendError(res, 400, e.message)`.  The
handler's local constants (`nonce`, the consumed store, `thresholdRaw`,
`balRawInt`) are written out at each use — the embedded calls are pure, so
repeating them is sound, and it keeps the definition a plain decision
tree. -/
def verifyCore (cfg : VerifyConfig) (dateParse : String → Option Int)
    (sigValid : String → String → String → Bool) (balRaw : JsNum)
    (secret : String) (nowMs : Int) (store : NonceStore)
    (address message signature : String) : NonceStore × HttpResponse :=
  if extractLine message "Nonce" = "" then
    (store, .errorResp 400 "Error: Nonce")
  else if extractLine message "Domain" = "" then
    (store, .errorResp 400 "Error: Domain")
  else if extractLine message "ChainId" = "" then
    (store, .errorResp 400 "Error: ChainId")
  else if extractLine message "IssuedAt" = "" then
    (store, .errorResp 400 "Error: IssuedAt")
  else if extractLine message "ExpiresIn" = "" then
    (store, .errorResp 400 "Error: ExpiresIn")
  else if !(consumeNonce store (extractLine message "Nonce") nowMs).2 then
    ((consumeNonce store (extractLine message "Nonce") nowMs).1,
      .errorResp 400 "Invalid Nonce")
  else if cfg.expectedDomain ≠ "" ∧
      extractLine message "Domain" ≠ cfg.expectedDomain then
    ((consumeNonce store (extractLine message "Nonce") nowMs).1,
      .errorResp 400 "Invalid domain")
  else if cfg.expectedChainId ≠ "" ∧
      extractLine message "ChainId" ≠ cfg.expectedChainId then
    ((consumeNonce store (extractLine message "Nonce") nowMs).1,
      .errorResp 400 "Invalid chainId")
  else if !isMessageFresh dateParse (extractLine message "IssuedAt")
      (extractLine message "ExpiresIn") cfg.clockSkewMs nowMs then
    ((consumeNonce store (extractLine message "Nonce") nowMs).1,
      .errorResp 400 "Message Error")
  else if !sigValid address message signature then
    ((consumeNonce store (extractLine message "Nonce") nowMs).1,
      .errorResp 401 "firma inválida")
  else if (toSafeBigInt balRaw).value
      < cfg.thresholdHuman * 10 ^ cfg.decimals then
    ((consumeNonce store (extractLine message "Nonce") nowMs).1,
      .gating 403 "gating: balance insuficiente"
        (toHuman (toSafeBigInt balRaw).value cfg.decimals)
        (toHuman (cfg.thresholdHuman * 10 ^ cfg.decimals) cfg.decimals)
        cfg.decimals)
  else
    ((consumeNonce store (extractLine message "Nonce") nowMs).1,
      .verifyOk (signJwt address cfg.jwtTtlMin secret nowMs)
        (toHuman (toSafeBigInt balRaw).value cfg.decimals)
        (toHuman (cfg.thresholdHuman * 10 ^ cfg.decimals) cfg.decimals)
        cfg.decimals)

/-- The environment-derived configuration used by `/auth/refresh`. -/
structure RefreshConfig where
  recheckOnRefresh : Bool
  refreshMinRemainSec : Int
  jwtTtlMin : Int
  thresholdHuman : Int
  decimals : Nat
deriving DecidableEq

/-- The `/auth/refresh` handler (`server.ts` lines 152–198).  The bearer
header is modelled as `Option Token` (`none`: `getBearerToken` found no
`Bearer <tok>` match).  `balRaw` is the oracle for the awaited
`getVFTBalance(payload.sub, api)` result used on the recheck path. -/
def refreshHandler (cfg : RefreshConfig) (balRaw : JsNum) (secret : String)
    (nowMs : Int) (bearer : Option Token) : HttpResponse :=
  match bearer with
  | none => .errorResp 401 "falta token"
  | some tok =>
    match jwtVerify tok secret (nowMs.fdiv 1000) with
    | none => .errorResp 401 "Invalid token"
    | some payload =>
      let remain := secondsUntil nowMs payload.exp
      if cfg.refreshMinRemainSec < remain then
        .refreshOk tok remain false
      else
        let issueNew :=
          let newJwt := signJwt payload.sub cfg.jwtTtlMin secret nowMs
          HttpResponse.refreshOk newJwt
            (secondsUntil nowMs (tokenDecodedExp newJwt)) true
        if cfg.recheckOnRefresh then
          let thresholdRaw : Int := cfg.thresholdHuman * 10 ^ cfg.decimals
          let balRawInt : Int := (toSafeBigInt balRaw).value
          if balRawInt < thresholdRaw then
            .gating 403 "gating: Insuficient Balance (refresh)"
              (toHuman balRawInt cfg.decimals)
              (toHuman thresholdRaw cfg.decimals) cfg.decimals
          else issueNew
        else issueNew

/-- The `/entitlement` handler (`server.ts` lines 201–210).  The header is
modelled as `Option Token` (`none`: the string left after stripping the
`Bearer` prefix is empty, i.e. the `!token` guard fires). -/
def entitlementHandler (secret : String) (nowMs : Int)
    (bearer : Option Token) : HttpResponse :=
  match bearer with
  | none => .errorResp 401 "Token Error"
  | some tok =>
    match jwtVerify tok secret (nowMs.fdiv 1000) with
    | none => .errorResp 401 "Invalid token"
    | some payload => .entitlementOk payload.sub payload.hasAccess

/-- Outcome of the `svc.balanceOf(normalized)` call inside
`getVFTBalance`: either the promise rejects / a constructor throws, or it
yields a value whose JS `Number(...)` conversion is `n`. -/
inductive ChainOutcome where
  | throws : ChainOutcome
  | value (n : JsNum) : ChainOutcome
deriving DecidableEq

/-- Result of `getVFTBalance`: the returned number and whether a
`console.warn`/`console.error` fired on the way. -/
structure BalanceResult where
  balance : JsNum
  logged : Bool
deriving DecidableEq

/-- `getVFTBalance(accountAddress, api)` from `gear.ts`:

```
if (!accountAddress || !api) { console.warn("Account Error"); return 0; }
try {
  ... const result = await svc.balanceOf(normalized);
  const balance = Number(result);
  if (isNaN(balance)) { console.warn(...); return 0; }
  return balance;
} catch (error) { console.error(...); return 0; }
```
-/
def getVFTBalance (accountAddress : String) (apiPresent : Bool)
    (outcome : ChainOutcome) : BalanceResult :=
  if accountAddress = "" ∨ apiPresent = false then ⟨.finite 0, true⟩
  else
    match outcome with
    | .throws => ⟨.finite 0, true⟩
    | .value n =>
      match n with
      | .nan => ⟨.finite 0, true⟩
      | .inf b => ⟨.inf b, false⟩
      | .finite q => ⟨.finite q, false⟩

/-! ## Theorems -/

theorem NonceStore.lookup_set (s : NonceStore) (k : String) (v : Int) :
    (s.set k v).lookup k = some v := by
  simp [NonceStore.lookup, NonceStore.set]

theorem NonceStore.lookup_del (s : NonceStore) (k : String) :
    (s.del k).lookup k = none := by
  simp [NonceStore.lookup, NonceStore.del]

/-- A `consumeNonce` call that succeeds has removed the entry. -/
theorem consumeNonce_true_lookup (s : NonceStore) (n : String) (t : Int)
    (h : (consumeNonce s n t).2 = true) :
    (consumeNonce s n t).1.lookup n = none := by
  unfold consumeNonce at h ⊢
  cases hl : s.lookup n with
  | none => rw [hl] at h; simp at h
  | some exp =>
      rw [hl] at h
      by_cases h0 : exp = 0
      · simp [h0] at h
      · simp [h0, NonceStore.lookup_del]

/-- When the five challenge fields are present, the `/auth/verify` handler
leaves the nonce store exactly as the `consumeNonce` call left it,
whatever happens afterwards. -/
theorem verifyCore_fst (cfg : VerifyConfig) (dateParse : String → Option Int)
    (sigValid : String → String → String → Bool) (balRaw : JsNum)
    (secret : String) (nowMs : Int) (store : NonceStore)
    (address message signature : String)
    (hn : extractLine message "Nonce" ≠ "")
    (hd : extractLine message "Domain" ≠ "")
    (hc : extractLine message "ChainId" ≠ "")
    (hi : extractLine message "IssuedAt" ≠ "")
    (he : extractLine message "ExpiresIn" ≠ "") :
    (verifyCore cfg dateParse sigValid balRaw secret nowMs store address
        message signature).1
      = (consumeNonce store (extractLine message "Nonce") nowMs).1 := by
  simp only [verifyCore]
  split_ifs <;> simp_all

/-- C1: a nonce issued at time `t0` with TTL `ttlSec` (so stored expiry
`t0 + ttlSec * 1000`, nonzero for any physical clock reading) is removed
from the registry by the first `consumeNonce` call whatever the current
time `nowMs` is; that call returns `true` iff the expiry has not yet
passed; and any later `consumeNonce` of the same value returns `false`. -/
theorem consumeNonce_one_shot (store : NonceStore) (v : String)
    (ttlSec t0 nowMs nowMs' : Int) (hexp : t0 + ttlSec * 1000 ≠ 0) :
    ((consumeNonce (issueNonce store v ttlSec t0) v nowMs).1.lookup v = none) ∧
    ((consumeNonce (issueNonce store v ttlSec t0) v nowMs).2 = true ↔
      nowMs < t0 + ttlSec * 1000) ∧
    ((consumeNonce (consumeNonce (issueNonce store v ttlSec t0) v nowMs).1
        v nowMs').2 = false) := by
  have hlook : (issueNonce store v ttlSec t0).lookup v
      = some (t0 + ttlSec * 1000) := NonceStore.lookup_set store v _
  refine ⟨?_, ?_, ?_⟩
  · simp [consumeNonce, hlook, hexp, NonceStore.lookup_del]
  · simp [consumeNonce, hlook, hexp]
  · simp [consumeNonce, hlook, hexp, NonceStore.lookup_del]

/-- Witness for C1 at a concrete issue time, TTL and store. -/
theorem consumeNonce_one_shot_witness :
    ((1000 : Int) + 600 * 1000 ≠ 0) ∧
    (((consumeNonce (issueNonce ∅ "nonce-a" 600 1000) "nonce-a" 2000).1.lookup
        "nonce-a" = none) ∧
    ((consumeNonce (issueNonce ∅ "nonce-a" 600 1000) "nonce-a" 2000).2 = true ↔
      (2000 : Int) < 1000 + 600 * 1000) ∧
    ((consumeNonce
        (consumeNonce (issueNonce ∅ "nonce-a" 600 1000) "nonce-a" 2000).1
        "nonce-a" 3000).2 = false)) :=
  ⟨by decide, consumeNonce_one_shot ∅ "nonce-a" 600 1000 2000 3000 (by decide)⟩

/-- C2: with all five message fields present, the nonce is consumed before
the domain, chain-id, freshness and signature checks.  (a) If the nonce is
absent from the registry or expired (`consumeNonce` returns `false`), the
handler answers 400 `Invalid Nonce` — whatever `sigValid` and `balRaw`
are, i.e. even with a valid signature and a sufficient balance.  (b) If
the nonce was valid and unexpired (`consumeNonce` returns `true`), the
nonce is removed from the registry in the resulting store, whatever the
outcome of the later checks. -/
theorem verify_nonce_consumed_first (cfg : VerifyConfig)
    (dateParse : String → Option Int)
    (sigValid : String → String → String → Bool) (balRaw : JsNum)
    (secret : String) (nowMs : Int) (store : NonceStore)
    (address message signature : String)
    (hn : extractLine message "Nonce" ≠ "")
    (hd : extractLine message "Domain" ≠ "")
    (hc : extractLine message "ChainId" ≠ "")
    (hi : extractLine message "IssuedAt" ≠ "")
    (he : extractLine message "ExpiresIn" ≠ "") :
    ((consumeNonce store (extractLine message "Nonce") nowMs).2 = false →
      verifyCore cfg dateParse sigValid balRaw secret nowMs store address
          message signature
        = ((consumeNonce store (extractLine message "Nonce") nowMs).1,
            .errorResp 400 "Invalid Nonce")) ∧
    ((consumeNonce store (extractLine message "Nonce") nowMs).2 = true →
      ((verifyCore cfg dateParse sigValid balRaw secret nowMs store address
          message signature).1).lookup (extractLine message "Nonce")
        = none) := by
  constructor
  · intro hfail
    simp [verifyCore, hn, hd, hc, hi, he, hfail]
  · intro hok
    rw [verifyCore_fst cfg dateParse sigValid balRaw secret nowMs store
      address message signature hn hd hc hi he]
    exact consumeNonce_true_lookup _ _ _ hok

/-- Witness for C2: empty registry, a five-field challenge message, valid
signature and ample balance — the consume fails and the handler answers
`Invalid Nonce`. -/
theorem verify_nonce_consumed_first_witness :
    (extractLine "Nonce: n\nDomain: d\nChainId: vara\nIssuedAt: t\nExpiresIn: 10m"
        "Nonce" ≠ "") ∧
    (((consumeNonce ∅ (extractLine
          "Nonce: n\nDomain: d\nChainId: vara\nIssuedAt: t\nExpiresIn: 10m"
          "Nonce") 0).2 = false →
      verifyCore ⟨"", "", 120000, 3000, 0, 20⟩ (fun _ => none)
          (fun _ _ _ => true) (JsNum.finite 5000) "s" 0 ∅ "addr"
          "Nonce: n\nDomain: d\nChainId: vara\nIssuedAt: t\nExpiresIn: 10m"
          "sig0123456"
        = ((consumeNonce ∅ (extractLine
              "Nonce: n\nDomain: d\nChainId: vara\nIssuedAt: t\nExpiresIn: 10m"
              "Nonce") 0).1,
            .errorResp 400 "Invalid Nonce")) ∧
    ((consumeNonce ∅ (extractLine
          "Nonce: n\nDomain: d\nChainId: vara\nIssuedAt: t\nExpiresIn: 10m"
          "Nonce") 0).2 = true →
      ((verifyCore ⟨"", "", 120000, 3000, 0, 20⟩ (fun _ => none)
          (fun _ _ _ => true) (JsNum.finite 5000) "s" 0 ∅ "addr"
          "Nonce: n\nDomain: d\nChainId: vara\nIssuedAt: t\nExpiresIn: 10m"
          "sig0123456").1).lookup (extractLine
            "Nonce: n\nDomain: d\nChainId: vara\nIssuedAt: t\nExpiresIn: 10m"
            "Nonce") = none)) :=
  ⟨by decide,
    verify_nonce_consumed_first ⟨"", "", 120000, 3000, 0, 20⟩ (fun _ => none)
      (fun _ _ _ => true) (JsNum.finite 5000) "s" 0 ∅ "addr"
      "Nonce: n\nDomain: d\nChainId: vara\nIssuedAt: t\nExpiresIn: 10m"
      "sig0123456" (by decide) (by decide) (by decide) (by decide) (by decide)⟩

/-- C3: the freshness predicate succeeds exactly when `IssuedAt` parses,
the parsed `ExpiresIn` duration is strictly positive, and the current time
lies in the closed window `[issued - skew, issued + dur + skew]`; and a
message issued more than `skew` in the future is answered with the 400
`Message Error` response by `/auth/verify`, whatever the signature oracle
and the balance say. -/
theorem freshness_window (cfg : VerifyConfig)
    (dateParse : String → Option Int)
    (sigValid : String → String → String → Bool) (balRaw : JsNum)
    (secret : String) (nowMs issued : Int) (store : NonceStore)
    (address message signature : String)
    (hn : extractLine message "Nonce" ≠ "")
    (hd : extractLine message "Domain" ≠ "")
    (hc : extractLine message "ChainId" ≠ "")
    (hi : extractLine message "IssuedAt" ≠ "")
    (he : extractLine message "ExpiresIn" ≠ "")
    (hcons : (consumeNonce store (extractLine message "Nonce") nowMs).2 = true)
    (hdom : cfg.expectedDomain = "" ∨
      extractLine message "Domain" = cfg.expectedDomain)
    (hchain : cfg.expectedChainId = "" ∨
      extractLine message "ChainId" = cfg.expectedChainId)
    (hparse : dateParse (extractLine message "IssuedAt") = some issued)
    (hfuture : nowMs + cfg.clockSkewMs < issued) :
    (∀ (iA eI : String) (skew now : Int),
      isMessageFresh dateParse iA eI skew now = true ↔
        ∃ t, dateParse iA = some t ∧ 0 < parseDurationMs eI ∧
          t - skew ≤ now ∧ now ≤ t + parseDurationMs eI + skew) ∧
    isMessageFresh dateParse (extractLine message "IssuedAt")
      (extractLine message "ExpiresIn") cfg.clockSkewMs nowMs = false ∧
    (verifyCore cfg dateParse sigValid balRaw secret nowMs store address
        message signature).2 = .errorResp 400 "Message Error" := by
  have hiff : ∀ (iA eI : String) (skew now : Int),
      isMessageFresh dateParse iA eI skew now = true ↔
        ∃ t, dateParse iA = some t ∧ 0 < parseDurationMs eI ∧
          t - skew ≤ now ∧ now ≤ t + parseDurationMs eI + skew := by
    intro iA eI skew now
    cases hp : dateParse iA with
    | none => simp [isMessageFresh, hp]
    | some t =>
        by_cases hdur : parseDurationMs eI ≤ 0 <;>
          · simp [isMessageFresh, hp, hdur]
            try omega
  have hfreshF : isMessageFresh dateParse (extractLine message "IssuedAt")
      (extractLine message "ExpiresIn") cfg.clockSkewMs nowMs = false := by
    have hnot : ¬ (issued - cfg.clockSkewMs ≤ nowMs) := by omega
    by_cases hdur : parseDurationMs (extractLine message "ExpiresIn") ≤ 0 <;>
      simp [isMessageFresh, hparse, hdur, hnot]
  have hdom' : ¬ (cfg.expectedDomain ≠ "" ∧
      extractLine message "Domain" ≠ cfg.expectedDomain) := by
    rcases hdom with h | h <;> simp [h]
  have hchain' : ¬ (cfg.expectedChainId ≠ "" ∧
      extractLine message "ChainId" ≠ cfg.expectedChainId) := by
    rcases hchain with h | h <;> simp [h]
  refine ⟨hiff, hfreshF, ?_⟩
  simp [verifyCore, hn, hd, hc, hi, he, hcons, hdom', hchain', hfreshF]

/-- Witness for C3: a consumable nonce, a message issued far in the
future, a valid signature and an ample balance — `/auth/verify` still
answers 400 `Message Error`. -/
theorem freshness_window_witness :
    ((consumeNonce (issueNonce ∅ "n" 600 1000)
        (extractLine "Nonce: n\nDomain: d\nChainId: v\nIssuedAt: f\nExpiresIn: 10m"
          "Nonce") 2000).2 = true) ∧
    ((2000 : Int) + 120000 < 1000000000) ∧
    ((∀ (iA eI : String) (skew now : Int),
        isMessageFresh (fun s => if s = "f" then some (1000000000 : Int) else none)
            iA eI skew now = true ↔
          ∃ t, (fun s => if s = "f" then some (1000000000 : Int) else none) iA
              = some t ∧ 0 < parseDurationMs eI ∧
            t - skew ≤ now ∧ now ≤ t + parseDurationMs eI + skew) ∧
      isMessageFresh (fun s => if s = "f" then some (1000000000 : Int) else none)
        (extractLine "Nonce: n\nDomain: d\nChainId: v\nIssuedAt: f\nExpiresIn: 10m"
          "IssuedAt")
        (extractLine "Nonce: n\nDomain: d\nChainId: v\nIssuedAt: f\nExpiresIn: 10m"
          "ExpiresIn") 120000 2000 = false ∧
      (verifyCore ⟨"", "", 120000, 3000, 0, 20⟩
          (fun s => if s = "f" then some (1000000000 : Int) else none)
          (fun _ _ _ => true) (JsNum.finite 5000) "s" 2000
          (issueNonce ∅ "n" 600 1000) "addr"
          "Nonce: n\nDomain: d\nChainId: v\nIssuedAt: f\nExpiresIn: 10m"
          "sig").2 = .errorResp 400 "Message Error") :=
  ⟨by decide, by decide,
    freshness_window ⟨"", "", 120000, 3000, 0, 20⟩
      (fun s => if s = "f" then some (1000000000 : Int) else none)
      (fun _ _ _ => true) (JsNum.finite 5000) "s" 2000 1000000000
      (issueNonce ∅ "n" 600 1000) "addr"
      "Nonce: n\nDomain: d\nChainId: v\nIssuedAt: f\nExpiresIn: 10m" "sig"
      (by decide) (by decide) (by decide) (by decide) (by decide) (by decide)
      (Or.inl rfl) (Or.inl rfl) (by decide) (by decide)⟩

/-- C4: once every check up to the signature has passed, the gating
decision is the exact integer comparison of `toSafeBigInt`-converted
balance against `thresholdHuman * 10^decimals`: a balance `≥` the raw
threshold (equality included) yields the success response with a freshly
signed token, a balance `<` it yields the 403 gating body and no token. -/
theorem verify_gating_exact (cfg : VerifyConfig)
    (dateParse : String → Option Int)
    (sigValid : String → String → String → Bool) (balRaw : JsNum)
    (secret : String) (nowMs : Int) (store : NonceStore)
    (address message signature : String)
    (hn : extractLine message "Nonce" ≠ "")
    (hd : extractLine message "Domain" ≠ "")
    (hc : extractLine message "ChainId" ≠ "")
    (hi : extractLine message "IssuedAt" ≠ "")
    (he : extractLine message "ExpiresIn" ≠ "")
    (hcons : (consumeNonce store (extractLine message "Nonce") nowMs).2 = true)
    (hdom : cfg.expectedDomain = "" ∨
      extractLine message "Domain" = cfg.expectedDomain)
    (hchain : cfg.expectedChainId = "" ∨
      extractLine message "ChainId" = cfg.expectedChainId)
    (hfresh : isMessageFresh dateParse (extractLine message "IssuedAt")
      (extractLine message "ExpiresIn") cfg.clockSkewMs nowMs = true)
    (hsig : sigValid address message signature = true) :
    (cfg.thresholdHuman * 10 ^ cfg.decimals ≤ (toSafeBigInt balRaw).value →
      (verifyCore cfg dateParse sigValid balRaw secret nowMs store address
          message signature).2
        = .verifyOk (signJwt address cfg.jwtTtlMin secret nowMs)
            (toHuman (toSafeBigInt balRaw).value cfg.decimals)
            (toHuman (cfg.thresholdHuman * 10 ^ cfg.decimals) cfg.decimals)
            cfg.decimals) ∧
    ((toSafeBigInt balRaw).value < cfg.thresholdHuman * 10 ^ cfg.decimals →
      (verifyCore cfg dateParse sigValid balRaw secret nowMs store address
          message signature).2
        = .gating 403 "gating: balance insuficiente"
            (toHuman (toSafeBigInt balRaw).value cfg.decimals)
            (toHuman (cfg.thresholdHuman * 10 ^ cfg.decimals) cfg.decimals)
            cfg.decimals) := by
  have hdom' : ¬ (cfg.expectedDomain ≠ "" ∧
      extractLine message "Domain" ≠ cfg.expectedDomain) := by
    rcases hdom with h | h <;> simp [h]
  have hchain' : ¬ (cfg.expectedChainId ≠ "" ∧
      extractLine message "ChainId" ≠ cfg.expectedChainId) := by
    rcases hchain with h | h <;> simp [h]
  constructor <;> intro hbal
  · simp [verifyCore, hn, hd, hc, hi, he, hcons, hdom', hchain', hfresh,
      hsig, not_lt.mpr hbal]
  · simp [verifyCore, hn, hd, hc, hi, he, hcons, hdom', hchain', hfresh,
      hsig, hbal]

/-- Witness for C4 at the threshold boundary: raw balance exactly
`3000 = 3000 * 10^0` grants access and a token is issued. -/
theorem verify_gating_exact_witness :
    ((3000 : Int) * 10 ^ (0 : ℕ) ≤
      (toSafeBigInt (JsNum.finite 3000)).value) ∧
    ((verifyCore ⟨"", "", 120000, 3000, 0, 20⟩
        (fun s => if s = "f" then some (2000 : Int) else none)
        (fun _ _ _ => true) (JsNum.finite 3000) "s" 2000
        (issueNonce ∅ "n" 600 1000) "addr"
        "Nonce: n\nDomain: d\nChainId: v\nIssuedAt: f\nExpiresIn: 10m"
        "sig").2
      = .verifyOk (signJwt "addr" 20 "s" 2000)
          (toHuman (toSafeBigInt (JsNum.finite 3000)).value 0)
          (toHuman (3000 * 10 ^ (0 : ℕ)) 0) 0) :=
  ⟨by decide,
    (verify_gating_exact ⟨"", "", 120000, 3000, 0, 20⟩
      (fun s => if s = "f" then some (2000 : Int) else none)
      (fun _ _ _ => true) (JsNum.finite 3000) "s" 2000
      (issueNonce ∅ "n" 600 1000) "addr"
      "Nonce: n\nDomain: d\nChainId: v\nIssuedAt: f\nExpiresIn: 10m" "sig"
      (by decide) (by decide) (by decide) (by decide) (by decide) (by decide)
      (Or.inl rfl) (Or.inl rfl) (by decide) (by decide)).1 (by decide)⟩

/-- C5 counterexample: `2^60` is out of range (`|2^60| > 2^53 - 1`); the
conversion fires the warning but returns `2^60` itself, not `0` as the
claim states. -/
theorem toSafeBigInt_no_clamp_counterexample :
    (MAX_SAFE_INTEGER : ℚ) < |(1152921504606846976 : ℚ)| ∧
    (toSafeBigInt (JsNum.finite 1152921504606846976)).warned = true ∧
    (toSafeBigInt (JsNum.finite 1152921504606846976)).value
      = 1152921504606846976 ∧
    (toSafeBigInt (JsNum.finite 1152921504606846976)).value ≠ 0 := by
  refine ⟨by norm_num [MAX_SAFE_INTEGER], ?_, ?_, ?_⟩ <;>
    norm_num [toSafeBigInt, jsTrunc, MAX_SAFE_INTEGER]

/-- C5 (amended): every non-finite input (`NaN`, `±Infinity`) is mapped to
`0` (without a warning); an out-of-range finite input (absolute value
above `MAX_SAFE_INTEGER`) fires the logged warning but the function
returns the exact truncation of the input — not `0`. -/
theorem toSafeBigInt_amended (q : ℚ) (b : Bool)
    (hq : (MAX_SAFE_INTEGER : ℚ) < |q|) :
    toSafeBigInt JsNum.nan = ⟨0, false⟩ ∧
    toSafeBigInt (JsNum.inf b) = ⟨0, false⟩ ∧
    (toSafeBigInt (JsNum.finite q)).warned = true ∧
    (toSafeBigInt (JsNum.finite q)).value = jsTrunc q := by
  refine ⟨rfl, rfl, ?_, rfl⟩
  simp [toSafeBigInt, hq]

/-- Witness for the amended C5 at `q = 2^60`. -/
theorem toSafeBigInt_amended_witness :
    ((MAX_SAFE_INTEGER : ℚ) < |(1152921504606846976 : ℚ)|) ∧
    (toSafeBigInt JsNum.nan = ⟨0, false⟩ ∧
      toSafeBigInt (JsNum.inf true) = ⟨0, false⟩ ∧
      (toSafeBigInt (JsNum.finite 1152921504606846976)).warned = true ∧
      (toSafeBigInt (JsNum.finite 1152921504606846976)).value
        = jsTrunc 1152921504606846976) :=
  ⟨by norm_num [MAX_SAFE_INTEGER],
    toSafeBigInt_amended 1152921504606846976 true
      (by norm_num [MAX_SAFE_INTEGER])⟩

/-- C6: a verifying token whose remaining lifetime strictly exceeds the
refresh floor is returned unchanged with `refreshed = false` and the
remaining seconds; the response is independent of the balance oracle (no
balance re-fetch) and contains the presented token, not a new one. -/
theorem refresh_early_unchanged (cfg : RefreshConfig) (balRaw balRaw' : JsNum)
    (secret : String) (nowMs : Int) (tok : Token) (p : JwtPayload)
    (hver : jwtVerify tok secret (nowMs.fdiv 1000) = some p)
    (hrem : cfg.refreshMinRemainSec < secondsUntil nowMs p.exp) :
    refreshHandler cfg balRaw secret nowMs (some tok)
      = .refreshOk tok (secondsUntil nowMs p.exp) false ∧
    refreshHandler cfg balRaw secret nowMs (some tok)
      = refreshHandler cfg balRaw' secret nowMs (some tok) := by
  constructor <;> simp [refreshHandler, hver, hrem]

/-- Witness for C6: a token with 10000 s of lifetime left against a 300 s
floor; the two balance oracles disagree and the response is the same. -/
theorem refresh_early_unchanged_witness :
    (jwtVerify (Token.signed ⟨"addr", true, 0, 10000⟩ "s") "s"
        ((0 : Int).fdiv 1000) = some ⟨"addr", true, 0, 10000⟩) ∧
    ((300 : Int) < secondsUntil 0 (10000 : Int)) ∧
    (refreshHandler ⟨true, 300, 20, 3000, 0⟩ (JsNum.finite 0) "s" 0
        (some (Token.signed ⟨"addr", true, 0, 10000⟩ "s"))
      = .refreshOk (Token.signed ⟨"addr", true, 0, 10000⟩ "s")
          (secondsUntil 0 (10000 : Int)) false ∧
    refreshHandler ⟨true, 300, 20, 3000, 0⟩ (JsNum.finite 0) "s" 0
        (some (Token.signed ⟨"addr", true, 0, 10000⟩ "s"))
      = refreshHandler ⟨true, 300, 20, 3000, 0⟩ (JsNum.finite 99) "s" 0
          (some (Token.signed ⟨"addr", true, 0, 10000⟩ "s"))) :=
  ⟨by decide, by decide,
    refresh_early_unchanged ⟨true, 300, 20, 3000, 0⟩ (JsNum.finite 0)
      (JsNum.finite 99) "s" 0 (Token.signed ⟨"addr", true, 0, 10000⟩ "s")
      ⟨"addr", true, 0, 10000⟩ (by decide) (by decide)⟩

/-- C7: at or below the refresh floor, with recheck enabled and the
re-fetched balance strictly below the raw threshold, `/auth/refresh`
answers the 403 gating body (error, human balance, threshold, decimals)
and signs no new token; the presented token is not revoked — it still
verifies, with the same payload, at every instant before its expiry. -/
theorem refresh_recheck_denies (cfg : RefreshConfig) (balRaw : JsNum)
    (secret : String) (nowMs : Int) (tok : Token) (p : JwtPayload)
    (hver : jwtVerify tok secret (nowMs.fdiv 1000) = some p)
    (hrem : secondsUntil nowMs p.exp ≤ cfg.refreshMinRemainSec)
    (hrecheck : cfg.recheckOnRefresh = true)
    (hbal : (toSafeBigInt balRaw).value
      < cfg.thresholdHuman * 10 ^ cfg.decimals) :
    refreshHandler cfg balRaw secret nowMs (some tok)
      = .gating 403 "gating: Insuficient Balance (refresh)"
          (toHuman (toSafeBigInt balRaw).value cfg.decimals)
          (toHuman (cfg.thresholdHuman * 10 ^ cfg.decimals) cfg.decimals)
          cfg.decimals ∧
    (∀ tSec : Int, tSec < p.exp → jwtVerify tok secret tSec = some p) := by
  have hrem' : ¬ (cfg.refreshMinRemainSec < secondsUntil nowMs p.exp) :=
    not_lt.mpr hrem
  constructor
  · simp [refreshHandler, hver, hrem', hrecheck, hbal]
  · intro tSec ht
    cases tok with
    | malformed r => simp [jwtVerify] at hver
    | signed p' s =>
        by_cases hc : s = secret ∧ nowMs.fdiv 1000 < p'.exp
        · rw [jwtVerify, if_pos hc] at hver
          cases hver
          simp [jwtVerify, hc.1, ht]
        · rw [jwtVerify, if_neg hc] at hver
          exact absurd hver (by simp)

/-- Witness for C7: a token 100 s from expiry against a 300 s floor, a
re-fetched balance of 1000 against threshold 3000; denial, and the token
still verifies at a time before expiry. -/
theorem refresh_recheck_denies_witness :
    (jwtVerify (Token.signed ⟨"addr", true, 0, 100⟩ "s") "s"
        ((0 : Int).fdiv 1000) = some ⟨"addr", true, 0, 100⟩) ∧
    (secondsUntil 0 (100 : Int) ≤ (300 : Int)) ∧
    ((toSafeBigInt (JsNum.finite 1000)).value < (3000 : Int) * 10 ^ (0 : ℕ)) ∧
    (refreshHandler ⟨true, 300, 20, 3000, 0⟩ (JsNum.finite 1000) "s" 0
        (some (Token.signed ⟨"addr", true, 0, 100⟩ "s"))
      = .gating 403 "gating: Insuficient Balance (refresh)"
          (toHuman (toSafeBigInt (JsNum.finite 1000)).value 0)
          (toHuman (3000 * 10 ^ (0 : ℕ)) 0) 0 ∧
    (∀ tSec : Int, tSec < (100 : Int) →
      jwtVerify (Token.signed ⟨"addr", true, 0, 100⟩ "s") "s" tSec
        = some ⟨"addr", true, 0, 100⟩)) :=
  ⟨by decide, by decide, by decide,
    refresh_recheck_denies ⟨true, 300, 20, 3000, 0⟩ (JsNum.finite 1000) "s" 0
      (Token.signed ⟨"addr", true, 0, 100⟩ "s") ⟨"addr", true, 0, 100⟩
      (by decide) (by decide) (by decide) (by decide)⟩

/-- C8: the balance lookup degrades every fault to a zero balance with a
log line — empty account address, missing api handle, a throwing chain
query, or a `NaN` conversion all yield `0`; and a zero balance is below
every positive threshold, so the fault can only deny access. -/
theorem getVFTBalance_fail_closed (addr : String) (apiPresent : Bool)
    (outcome : ChainOutcome)
    (h : addr = "" ∨ apiPresent = false ∨ outcome = .throws ∨
      outcome = .value .nan) :
    getVFTBalance addr apiPresent outcome = ⟨.finite 0, true⟩ ∧
    (∀ (thr : Int) (dec : ℕ), 1 ≤ thr →
      (toSafeBigInt (getVFTBalance addr apiPresent outcome).balance).value
        < thr * 10 ^ dec) := by
  have hres : getVFTBalance addr apiPresent outcome = ⟨.finite 0, true⟩ := by
    rcases h with h | h | h | h
    · simp [getVFTBalance, h]
    · simp [getVFTBalance, h]
    · subst h; unfold getVFTBalance; split <;> rfl
    · subst h; unfold getVFTBalance; split <;> rfl
  refine ⟨hres, ?_⟩
  intro thr dec hthr
  rw [hres]
  have hz : (toSafeBigInt (JsNum.finite 0)).value = 0 := by decide
  rw [hz]
  exact mul_pos (lt_of_lt_of_le zero_lt_one hthr)
    (pow_pos (by norm_num : (0 : ℤ) < 10) dec)

/-- Witness for C8: a throwing chain query with a nonempty address. -/
theorem getVFTBalance_fail_closed_witness :
    ((("addr" : String) = "" ∨ (true : Bool) = false ∨
        ChainOutcome.throws = ChainOutcome.throws ∨
        ChainOutcome.throws = ChainOutcome.value .nan)) ∧
    (getVFTBalance "addr" true ChainOutcome.throws = ⟨.finite 0, true⟩ ∧
      (∀ (thr : Int) (dec : ℕ), 1 ≤ thr →
        (toSafeBigInt (getVFTBalance "addr" true ChainOutcome.throws).balance).value
          < thr * 10 ^ dec)) :=
  ⟨by decide,
    getVFTBalance_fail_closed "addr" true ChainOutcome.throws (by decide)⟩

/-- C9 counterexample: the claim says every failing-token request gets the
identical `InvalidToken` body.  But a missing token and a malformed token
get different bodies on both endpoints: `/auth/refresh` answers
`falta token` vs `Invalid token`, `/entitlement` answers `Token Error` vs
`Invalid token`. -/
theorem token_error_oracle_counterexample :
    refreshHandler ⟨true, 300, 20, 3000, 0⟩ (JsNum.finite 0) "s" 0 none
      = .errorResp 401 "falta token" ∧
    refreshHandler ⟨true, 300, 20, 3000, 0⟩ (JsNum.finite 0) "s" 0
        (some (Token.malformed "x"))
      = .errorResp 401 "Invalid token" ∧
    refreshHandler ⟨true, 300, 20, 3000, 0⟩ (JsNum.finite 0) "s" 0 none
      ≠ refreshHandler ⟨true, 300, 20, 3000, 0⟩ (JsNum.finite 0) "s" 0
          (some (Token.malformed "x")) ∧
    entitlementHandler "s" 0 none = .errorResp 401 "Token Error" ∧
    entitlementHandler "s" 0 (some (Token.malformed "x"))
      = .errorResp 401 "Invalid token" ∧
    entitlementHandler "s" 0 none
      ≠ entitlementHandler "s" 0 (some (Token.malformed "x")) :=
  ⟨rfl, rfl, by decide, rfl, rfl, by decide⟩

/-- C9 (amended): all verification failures of a *present* token —
malformed string, wrong signing secret, expired — collapse to the one
generic 401 `Invalid token` response, identically on `/auth/refresh` and
on `/entitlement`, regardless of configuration, balance and clock; a
*missing* token is answered 401 with a different body (`falta token` on
refresh, `Token Error` on entitlement). -/
theorem token_error_collapse (cfg cfg' : RefreshConfig)
    (balRaw balRaw' : JsNum) (secret : String) (nowMs nowMs' : Int)
    (tok tok' : Token)
    (h : jwtVerify tok secret (nowMs.fdiv 1000) = none)
    (h' : jwtVerify tok' secret (nowMs'.fdiv 1000) = none) :
    refreshHandler cfg balRaw secret nowMs (some tok)
      = .errorResp 401 "Invalid token" ∧
    refreshHandler cfg' balRaw' secret nowMs' (some tok')
      = .errorResp 401 "Invalid token" ∧
    refreshHandler cfg balRaw secret nowMs (some tok)
      = refreshHandler cfg' balRaw' secret nowMs' (some tok') ∧
    entitlementHandler secret nowMs (some tok)
      = .errorResp 401 "Invalid token" ∧
    entitlementHandler secret nowMs' (some tok')
      = .errorResp 401 "Invalid token" ∧
    refreshHandler cfg balRaw secret nowMs none
      = .errorResp 401 "falta token" ∧
    entitlementHandler secret nowMs none = .errorResp 401 "Token Error" := by
  refine ⟨?_, ?_, ?_, ?_, ?_, rfl, rfl⟩ <;>
    simp [refreshHandler, entitlementHandler, h, h']

/-- Witness for the amended C9: a malformed token and a token signed with
a different secret, compared across different times and configurations. -/
theorem token_error_collapse_witness :
    (jwtVerify (Token.malformed "x") "s" ((0 : Int).fdiv 1000) = none) ∧
    (jwtVerify (Token.signed ⟨"a", true, 0, 5⟩ "other") "s"
        ((7000 : Int).fdiv 1000) = none) ∧
    (refreshHandler ⟨true, 300, 20, 3000, 0⟩ (JsNum.finite 0) "s" 0
        (some (Token.malformed "x")) = .errorResp 401 "Invalid token" ∧
    refreshHandler ⟨false, 60, 5, 1, 2⟩ (JsNum.finite 9) "s" 7000
        (some (Token.signed ⟨"a", true, 0, 5⟩ "other"))
      = .errorResp 401 "Invalid token" ∧
    refreshHandler ⟨true, 300, 20, 3000, 0⟩ (JsNum.finite 0) "s" 0
        (some (Token.malformed "x"))
      = refreshHandler ⟨false, 60, 5, 1, 2⟩ (JsNum.finite 9) "s" 7000
          (some (Token.signed ⟨"a", true, 0, 5⟩ "other")) ∧
    entitlementHandler "s" 0 (some (Token.malformed "x"))
      = .errorResp 401 "Invalid token" ∧
    entitlementHandler "s" 7000 (some (Token.signed ⟨"a", true, 0, 5⟩ "other"))
      = .errorResp 401 "Invalid token" ∧
    refreshHandler ⟨true, 300, 20, 3000, 0⟩ (JsNum.finite 0) "s" 0 none
      = .errorResp 401 "falta token" ∧
    entitlementHandler "s" 0 none = .errorResp 401 "Token Error") :=
  ⟨by decide, by decide,
    token_error_collapse ⟨true, 300, 20, 3000, 0⟩ ⟨false, 60, 5, 1, 2⟩
      (JsNum.finite 0) (JsNum.finite 9) "s" 0 7000 (Token.malformed "x")
      (Token.signed ⟨"a", true, 0, 5⟩ "other") (by decide) (by decide)⟩

/-- C10: every session token this server signs carries
`hasAccess = true`: `signJwt` always embeds it, a `/auth/verify` success
response or a `/auth/refresh` re-issuance (`refreshed = true`) only ever
carries a `signJwt` product, and `/entitlement` applied to a validly
issued, unexpired server token reports `hasAccess = true`. -/
theorem issued_tokens_hasAccess (addr : String) (ttl : Int) (secret : String)
    (nowMs : Int) :
    (∃ p : JwtPayload, signJwt addr ttl secret nowMs = .signed p secret ∧
      p.hasAccess = true) ∧
    (∀ (cfg : VerifyConfig) (dp : String → Option Int)
        (sv : String → String → String → Bool) (bal : JsNum) (now2 : Int)
        (store : NonceStore) (a m s : String) (tok : Token) (b t : ℚ)
        (d : Int),
      (verifyCore cfg dp sv bal secret now2 store a m s).2
          = .verifyOk tok b t d →
      ∃ p : JwtPayload, tok = .signed p secret ∧ p.hasAccess = true) ∧
    (∀ (rcfg : RefreshConfig) (bal : JsNum) (now2 : Int)
        (bearer : Option Token) (tok : Token) (r : Int),
      refreshHandler rcfg bal secret now2 bearer = .refreshOk tok r true →
      ∃ p : JwtPayload, tok = .signed p secret ∧ p.hasAccess = true) ∧
    (∀ tMs : Int, tMs.fdiv 1000 < nowMs.fdiv 1000 + ttl * 60 →
      entitlementHandler secret tMs (some (signJwt addr ttl secret nowMs))
        = .entitlementOk addr true) := by
  refine ⟨⟨_, rfl, rfl⟩, ?_, ?_, ?_⟩
  · intro cfg dp sv bal now2 store a m s tok b t d h
    simp only [verifyCore] at h
    by_cases h1 : extractLine m "Nonce" = ""
    · rw [if_pos h1] at h; exact absurd h (by simp)
    rw [if_neg h1] at h
    by_cases h2 : extractLine m "Domain" = ""
    · rw [if_pos h2] at h; exact absurd h (by simp)
    rw [if_neg h2] at h
    by_cases h3 : extractLine m "ChainId" = ""
    · rw [if_pos h3] at h; exact absurd h (by simp)
    rw [if_neg h3] at h
    by_cases h4 : extractLine m "IssuedAt" = ""
    · rw [if_pos h4] at h; exact absurd h (by simp)
    rw [if_neg h4] at h
    by_cases h5 : extractLine m "ExpiresIn" = ""
    · rw [if_pos h5] at h; exact absurd h (by simp)
    rw [if_neg h5] at h
    by_cases h6 : (!(consumeNonce store (extractLine m "Nonce") now2).2) = true
    · rw [if_pos h6] at h; exact absurd h (by simp)
    rw [if_neg h6] at h
    by_cases h7 : cfg.expectedDomain ≠ "" ∧
      extractLine m "Domain" ≠ cfg.expectedDomain
    · rw [if_pos h7] at h; exact absurd h (by simp)
    rw [if_neg h7] at h
    by_cases h8 : cfg.expectedChainId ≠ "" ∧
      extractLine m "ChainId" ≠ cfg.expectedChainId
    · rw [if_pos h8] at h; exact absurd h (by simp)
    rw [if_neg h8] at h
    by_cases h9 : (!isMessageFresh dp (extractLine m "IssuedAt")
      (extractLine m "ExpiresIn") cfg.clockSkewMs now2) = true
    · rw [if_pos h9] at h; exact absurd h (by simp)
    rw [if_neg h9] at h
    by_cases h10 : (!sv a m s) = true
    · rw [if_pos h10] at h; exact absurd h (by simp)
    rw [if_neg h10] at h
    by_cases h11 : (toSafeBigInt bal).value
      < cfg.thresholdHuman * 10 ^ cfg.decimals
    · rw [if_pos h11] at h; exact absurd h (by simp)
    rw [if_neg h11] at h
    injection h with hx1 hx2 hx3 hx4
    exact ⟨_, hx1.symm, rfl⟩
  · intro rcfg bal now2 bearer tok r h
    simp only [refreshHandler] at h
    repeat' split at h
    all_goals first
      | exact HttpResponse.noConfusion h
      | (injection h with h1 h2 h3
         first
           | exact Bool.noConfusion h3
           | exact ⟨_, h1.symm, rfl⟩)
  · intro tMs ht
    simp [entitlementHandler, signJwt, jwtVerify, ht]

/-- Witness for C10 at a concrete address, TTL, secret and clock. -/
theorem issued_tokens_hasAccess_witness :
    (∃ p : JwtPayload, signJwt "addr" 20 "s" 0 = .signed p "s" ∧
      p.hasAccess = true) ∧
    (∀ (cfg : VerifyConfig) (dp : String → Option Int)
        (sv : String → String → String → Bool) (bal : JsNum) (now2 : Int)
        (store : NonceStore) (a m s : String) (tok : Token) (b t : ℚ)
        (d : Int),
      (verifyCore cfg dp sv bal "s" now2 store a m s).2
          = .verifyOk tok b t d →
      ∃ p : JwtPayload, tok = .signed p "s" ∧ p.hasAccess = true) ∧
    (∀ (rcfg : RefreshConfig) (bal : JsNum) (now2 : Int)
        (bearer : Option Token) (tok : Token) (r : Int),
      refreshHandler rcfg bal "s" now2 bearer = .refreshOk tok r true →
      ∃ p : JwtPayload, tok = .signed p "s" ∧ p.hasAccess = true) ∧
    (∀ tMs : Int, tMs.fdiv 1000 < (0 : Int).fdiv 1000 + 20 * 60 →
      entitlementHandler "s" tMs (some (signJwt "addr" 20 "s" 0))
        = .entitlementOk "addr" true) :=
  issued_tokens_hasAccess "addr" 20 "s" 0

end TokenGate
